import Mathlib

/-!
Verification of the capture-buffer and audio/video synchronization engine of the
Python-Video-Annotater repository.

The Python sources `src/data.py` (class `Data`) and `src/player.py` (classes
`VideoPlayer` and `AnnotatedPlayer`) are shallowly embedded below:

* machine floats carrying timestamps become `ℚ`;
* `numpy` rasters and PCM buffers become abstract identifiers / integer lists
  (their contents are never inspected by the verified logic);
* the Python dict `Data.annotations` (int keys, insertion ordered) becomes an
  association list with Python-dict update semantics;
* code that can raise for "normal" edge cases is embedded as total functions
  returning sentinel values, exactly where the source returns sentinels;
  provably unreachable raising branches are marked in comments.
-/

namespace Annotater

/-- A video raster.  The annotation engine never inspects pixels, so a frame is
modelled by an opaque identifier. -/
abbrev Frame := Nat

/-- One PCM sample. -/
abbrev Sample := Int

/-- One audio chunk (`indata.copy()` in `audio_callback`): a list of samples. -/
abbrev AudioBuf := List Sample

/-- An (x, y) pointer position. -/
abbrev Point := Int × Int

/-- A drawn line segment (the two endpoints handed to `cv2.line`). -/
abbrev Segment := Point × Point

/-- One value of the `Data.annotations` dict (src/data.py).  The `anno` field is
the Python list `[command, [x, y]]`, with `[]` modelled as `none`.  The other
fields are `Option`s because the dead branch of `Data.add_annotation` (line 281)
would store Python `None` in them. -/
structure AnnoEntry where
  idx : Option Int
  org_idx : Option Int
  time_str : Option String
  anno : Option (String × Point)
  timestamp : Option ℚ
  deriving DecidableEq, Repr

/-- The mutable state of a `Data` object (src/data.py).  Fields keep the
source's attribute names.  `max_frame` (singular) is the attribute created only
by `Data.clean` (line 539); it does not exist before, hence the `Option`. -/
structure DataState where
  frames : List (ℚ × Int × Frame)
  audio_data : List (ℚ × AudioBuf)
  annotations : List (Nat × AnnoEntry)
  curr_frame : Int
  max_frames : Int
  max_frame : Option Int
  in_path : String
  out_path : String
  name : String
  in_file_path : String
  out_file_path : String
  audio_name : String
  audio_path : String
  frame_rate : ℚ
  frame_count : Int
  frame_width : Int
  frame_height : Int
  sample_rate : Int
  channels : Int
  deriving DecidableEq, Repr

/-- A `Data` object as built by `Data.__init__` with empty buffers; the string
fields are irrelevant to every verified property. -/
def emptyData : DataState where
  frames := []
  audio_data := []
  annotations := []
  curr_frame := 0
  max_frames := 10225
  max_frame := none
  in_path := ""
  out_path := ""
  name := ""
  in_file_path := ""
  out_file_path := ""
  audio_name := ""
  audio_path := ""
  frame_rate := 30
  frame_count := 10225
  frame_width := 0
  frame_height := 0
  sample_rate := 44100
  channels := 2

/-- Python dict read `d[k]` / `d.get(k)` on the annotations dict. -/
def alookup (k : Nat) : List (Nat × AnnoEntry) → Option AnnoEntry
  | [] => none
  | (k', v) :: rest => if k' = k then some v else alookup k rest

/-- Replace the value stored at a key that is already present. -/
def aset (k : Nat) (v : AnnoEntry) : List (Nat × AnnoEntry) → List (Nat × AnnoEntry)
  | [] => []
  | (k', v') :: rest => if k' = k then (k', v) :: rest else (k', v') :: aset k v rest

/-- Python dict write `d[k] = v`: update in place when the key exists, append a
new entry otherwise (insertion order preserved). -/
def aupsert (k : Nat) (v : AnnoEntry) (l : List (Nat × AnnoEntry)) :
    List (Nat × AnnoEntry) :=
  match alookup k l with
  | some _ => aset k v l
  | none => l ++ [(k, v)]

/-- The key list of the annotations dict (`self.annotations.keys()`). -/
def annoKeys (d : DataState) : List Nat := d.annotations.map Prod.fst

/-- Model of `Data.get_frames_length` (property, src/data.py lines 189-197). -/
def get_frames_length (d : DataState) : Nat := d.frames.length

/-- Model of `Data.get_audio_data_length` (src/data.py lines 199-207). -/
def get_audio_data_length (d : DataState) : Nat := d.audio_data.length

/-- Model of `Data.get_annotations_length` (src/data.py lines 209-217). -/
def get_annotations_length (d : DataState) : Nat := d.annotations.length

/-- Model of `Data.get_annotation` (src/data.py lines 140-154): `None` (plus a warning log)
when the frame index is untracked, the stored entry otherwise. -/
def get_anno_entry (d : DataState) (frame_idx : Nat) : Option AnnoEntry :=
  alookup frame_idx d.annotations

/-- Model of `max(keys)` over the annotations dict; Python raises `ValueError` on an
empty dict, modelled as `none`. -/
def maxKey : List (Nat × AnnoEntry) → Option Nat
  | [] => none
  | (k, _) :: rest =>
    match maxKey rest with
    | none => some k
    | some m => some (max k m)

/-- Model of `Data.get_last_anno` (src/data.py lines 166-175): the empty-session guard
returns `None` when no frames or no annotations exist; otherwise the `anno`
field of the entry at the largest key (that key is always present, so the inner
`none` branches are unreachable). -/
def get_last_anno (d : DataState) : Option (String × Point) :=
  if get_frames_length d = 0 ∨ get_annotations_length d = 0 then none
  else
    match maxKey d.annotations with
    | none => none
    | some k =>
      match get_anno_entry d k with
      | none => none
      | some e => e.anno

/-- Model of `Data.add_curr_frame` (src/data.py lines 221-244): advance the high-water
mark when the supplied decoder index reaches it (a larger index only logs a
warning), append the frame, then create or update the annotation entry keyed by
the new logical index `new_frame_idx = len(self.frames) - 1`. -/
def add_curr_frame (d : DataState) (org_frame_idx frame_idx : Int) (frame : Frame)
    (time_str : String) (timestamp : ℚ) : DataState :=
  let d :=
    if frame_idx = d.max_frames then { d with max_frames := d.max_frames + 1 } else d
  let frames' := d.frames ++ [(timestamp, frame_idx, frame)]
  let new_frame_idx := frames'.length - 1
  let annotations' :=
    match alookup new_frame_idx d.annotations with
    | none =>
      d.annotations ++ [(new_frame_idx,
        { idx := some frame_idx, org_idx := some org_frame_idx,
          time_str := some time_str, anno := none, timestamp := some timestamp })]
    | some e =>
      aset new_frame_idx
        { e with idx := some frame_idx, org_idx := some org_frame_idx,
                 time_str := some time_str, timestamp := some timestamp }
        d.annotations
  { d with frames := frames', annotations := annotations' }

/-- Model of `Data.add_audio_data` (src/data.py lines 246-254). -/
def add_audio_data (d : DataState) (timestamp : ℚ) (audio : AudioBuf) : DataState :=
  { d with audio_data := d.audio_data ++ [(timestamp, audio)] }

/-- One write of the `anno` field by `Data.add_annotation`: if the stored
command is `start`, keep `start` (the "`start` is sticky" rule), otherwise
store the incoming command; the point is always overwritten. -/
def strokeWrite (command : String) (pt : Point) :
    Option (String × Point) → Option (String × Point)
  | some (c0, _) => if c0 = "start" then some ("start", pt) else some (command, pt)
  | none => some (command, pt)

/-- The annotations dict produced by `Data.add_annotation` (src/data.py lines
256-286).  The two early returns guard the empty-frame and untracked-index
cases.  The body then writes the `anno` field of the entry at
`frame_idx = len(self.frames) - 1` twice: once inside the
`if frame_idx in self.annotations` branch (lines 273-281, whose `else` arm is
dead because of the guard above, as is the `none` arm of the second lookup),
and once more in the redundant block at lines 283-284. -/
def add_anno_list (d : DataState) (command : String) (pt : Point) :
    List (Nat × AnnoEntry) :=
  if get_frames_length d = 0 then d.annotations
  else
    let frame_idx := get_frames_length d - 1
    match alookup frame_idx d.annotations with
    | none => d.annotations
    | some e =>
      let annos1 := aset frame_idx { e with anno := strokeWrite command pt e.anno }
        d.annotations
      match alookup frame_idx annos1 with
      | none => annos1
      | some e1 =>
        aset frame_idx { e1 with anno := strokeWrite command pt e1.anno } annos1

/-- Model of `Data.add_annotation`: only `self.annotations` is ever written. -/
def add_anno (d : DataState) (command : String) (pt : Point) : DataState :=
  { d with annotations := add_anno_list d command pt }

/-- Model of `Data.update_curr_frame` (src/data.py lines 324-331). -/
def update_curr_frame (d : DataState) (frame : Int) : DataState :=
  { d with curr_frame := frame }

/-- Model of `Data.update_max_frames` (src/data.py lines 333-340). -/
def update_max_frames (d : DataState) (frame : Int) : DataState :=
  { d with max_frames := frame }

/-- Model of `Data.increment_max_frame` (src/data.py lines 342-344). -/
def increment_max_frame (d : DataState) : DataState :=
  { d with max_frames := d.max_frames + 1 }

/-- Model of `Data.clean` (src/data.py lines 533-540).  Note the source assigns
`self.max_frame = 0` (singular), creating a fresh attribute and leaving the
`max_frames` high-water counter untouched. -/
def clean (d : DataState) : DataState :=
  { d with frames := [], audio_data := [], annotations := [],
           curr_frame := 0, max_frame := some 0 }

/-- The inner loop of `Data.identify_video_gaps`: compare each frame timestamp
with its predecessor. -/
def gapScan (threshold : ℚ) : ℚ → List (ℚ × Int × Frame) → List (ℚ × ℚ)
  | _, [] => []
  | prev, (t, _, _) :: rest =>
    if t - prev > threshold then (prev, t) :: gapScan threshold t rest
    else gapScan threshold t rest

/-- Model of `Data.identify_video_gaps` (src/data.py lines 348-364): every consecutive
pair of frame timestamps more than `threshold` apart yields a gap. -/
def identify_video_gaps (d : DataState) (threshold : ℚ) : List (ℚ × ℚ) :=
  match d.frames with
  | [] => []
  | (t, _, _) :: rest => gapScan threshold t rest

/-- The cursor walk of `Data.combined_audio` (src/data.py lines 375-391): for
each gap, keep chunks strictly before the gap start, skip chunks strictly
before the gap end, then keep everything after the last gap. -/
def sync_walk (audio : List (ℚ × AudioBuf)) : List (ℚ × ℚ) → List AudioBuf
  | [] => audio.map Prod.snd
  | (gap_start, gap_end) :: gaps =>
    let before := audio.takeWhile (fun a => a.1 < gap_start)
    let rest := (audio.dropWhile (fun a => a.1 < gap_start)).dropWhile (fun a => a.1 < gap_end)
    before.map Prod.snd ++ sync_walk rest gaps

/-- Model of `Data.combined_audio` (src/data.py lines 366-399): concatenate the surviving
chunks (`np.concatenate`); an empty survivor list yields the empty array. -/
def combined_audio (d : DataState) : List Sample :=
  (sync_walk d.audio_data (identify_video_gaps d (1/10))).flatten

/-! ### Persistence (`Data.save_annotations`) and its companions -/

/-- The reserved `"metadata"` value written by `Data.save_annotations`
(src/data.py lines 487-495).  Its `frame_count` field is taken from
`self.max_frames`. -/
structure Metadata where
  video_name : String
  frame_rate : ℚ
  frame_count : Int
  frame_width : Int
  frame_height : Int
  sample_rate : Int
  channels : Int
  deriving DecidableEq, Repr

/-- A value of the persisted JSON object: either a frame entry or the reserved
metadata record. -/
inductive JVal where
  | entry (e : AnnoEntry)
  | meta (m : Metadata)
  deriving DecidableEq, Repr

/-- Model of `Data.save_annotations` (src/data.py lines 480-504): the annotations dict is
dumped as a JSON object whose integer keys become decimal strings (`json.dump`
stringifies them with `str`), in insertion order, followed by the freshly added
reserved `"metadata"` key. -/
def save_annotations (d : DataState) : List (String × JVal) :=
  d.annotations.map (fun kv => (Nat.repr kv.1, JVal.entry kv.2)) ++
    [("metadata", JVal.meta
      { video_name := d.name, frame_rate := d.frame_rate, frame_count := d.max_frames,
        frame_width := d.frame_width, frame_height := d.frame_height,
        sample_rate := d.sample_rate, channels := d.channels })]

/-- Lookup in the reloaded JSON object (`self.meta[str(frame_number)]`). -/
def slookup (k : String) : List (String × JVal) → Option JVal
  | [] => none
  | (k', v) :: rest => if k' = k then some v else slookup k rest

/-- What `AnnotatedPlayer._process_frame` (src/player.py lines 479-485) replays
for one frame: the stroke command/point handed to `_draw_annotations` when the
stored `anno` list is non-empty, and the label handed to `_draw_time` when the
stored `time_str` is truthy. -/
structure Replay where
  anno : Option (String × Point)
  time : Option String
  deriving DecidableEq, Repr

/-- Model of `AnnotatedPlayer._process_frame`: look up `str(frame_number)` in the loaded
metadata dict; on a hit, replay the `anno` pair (if non-empty) and the
`time_str` label (if truthy).  The `JVal.meta` arm is unreachable because a
decimal key never equals `"metadata"`. -/
def process_frame (meta : List (String × JVal)) (frame_number : Nat) : Replay :=
  match slookup (Nat.repr frame_number) meta with
  | some (JVal.entry fd) =>
    { anno := fd.anno
      time :=
        match fd.time_str with
        | none => none
        | some t => if t = "" then none else some t }
  | _ => { anno := none, time := none }

/-! ### The capture player (`VideoPlayer`, src/player.py) -/

/-- A control verb carried by the command queue (`VideoPlayer._handle_commands`,
src/player.py lines 269-280): the strings `'pause'` and `'restart'` and the
tuple `('seek', n)`. -/
inductive Command where
  | pause
  | seek (n : Int)
  | restart
  deriving DecidableEq, Repr

/-- The per-tick mutable state of a `VideoPlayer` (src/player.py lines 42-66),
restricted to what the verified logic reads or writes.  `capPos` and
`capFrameCount` stand for `cv2.CAP_PROP_POS_FRAMES` and the decoder's reported
`CAP_PROP_FRAME_COUNT`; `pbarN`/`pbarTotal` are the tqdm counter used as the
logical tick count.  Rasters are opaque, so drawing on `frame` is invisible,
but the annotation draw state (`start_point`, `annotation_chunk`) is tracked. -/
structure PlayerState where
  paused : Bool
  drawing : Bool
  long_annotations : Bool
  capPos : Int
  capFrameCount : Int
  curr_frame_idx : Int
  last_frame_time : ℚ
  frame : Frame
  pause_frame : Frame
  last_frame : Frame
  start_counter : ℚ
  pbarN : Nat
  pbarTotal : Int
  start_point : Option Point
  annotation_chunk : List Point
  data : DataState
  command_queue : List Command
  deriving DecidableEq, Repr

/-- Model of `VideoPlayer.toggle_pause` (src/player.py lines 289-291). -/
def toggle_pause (s : PlayerState) : PlayerState :=
  { s with paused := !s.paused }

/-- Model of `VideoPlayer.seek` (src/player.py lines 293-301). -/
def VideoPlayer.seek (s : PlayerState) (frame_number : Int) : PlayerState :=
  { s with capPos := frame_number,
           data := update_curr_frame s.data frame_number,
           curr_frame_idx := frame_number }

/-- Model of `VideoPlayer.restart` (src/player.py lines 303-323): unpause, stop drawing,
rewind the decoder, `Data.clean()`, reseed `max_frames` from the decoder's
frame count, drain the command queue, and reset the tqdm bar. -/
def VideoPlayer.restart (s : PlayerState) : PlayerState :=
  { s with paused := false, drawing := false,
           capPos := 0,
           data := update_max_frames (clean s.data) s.capFrameCount,
           command_queue := [],
           pbarN := 0,
           pbarTotal := s.capFrameCount }

/-- Model of `VideoPlayer._handle_commands` (src/player.py lines 269-280): pop at most
one command from the queue (`get_nowait`; an empty queue is a no-op) and apply
it. -/
def handle_commands (s : PlayerState) : PlayerState :=
  match s.command_queue with
  | [] => s
  | c :: rest =>
    let s := { s with command_queue := rest }
    match c with
    | Command.pause => toggle_pause s
    | Command.seek n => VideoPlayer.seek s n
    | Command.restart => VideoPlayer.restart s

/-- Two-digit zero padding used by `str(datetime.timedelta)` for minutes and
seconds. -/
def pad2 (n : Nat) : String := if n < 10 then "0" ++ Nat.repr n else Nat.repr n

/-- Model of `VideoPlayer.draw_timer` (src/player.py lines 204-210):
`str(datetime.timedelta(milliseconds=int(elapsed_ms))).split(".")[0]`, i.e. the
`[D day[s], ]H:MM:SS` prefix of the timedelta string.  Every reachable call
site passes a nonnegative number of milliseconds, where Python `int()`
truncation agrees with the floor taken here. -/
def timeStr (elapsed_ms : ℚ) : String :=
  let ms : Nat := (Rat.floor elapsed_ms).toNat
  let s := ms / 1000
  let days := s / 86400
  let h := (s % 86400) / 3600
  let m := (s % 3600) / 60
  let sec := s % 60
  let core := Nat.repr h ++ ":" ++ pad2 m ++ ":" ++ pad2 sec
  if days = 0 then core
  else Nat.repr days ++ (if days = 1 then " day, " else " days, ") ++ core

/-- Segments drawn by `for i in range(len(chunk) - 1): cv2.line(chunk[i],
chunk[i+1], ...)`: every consecutive pair of the chunk. -/
def consecSegs : List Point → List Segment
  | [] => []
  | [_] => []
  | a :: b :: rest => (a, b) :: consecSegs (b :: rest)

/-- The command dispatch of `VideoPlayer.draw_annotations`,
`_draw_move_annotations` and `_finalize_annotation_chunk` (src/player.py lines
166-202), acting on the `(start_point, annotation_chunk)` draw state and
returning the segments handed to `cv2.line`. -/
def vp_draw_command (long : Bool) (st : Option Point × List Point)
    (command : String) (point : Point) : (Option Point × List Point) × List Segment :=
  if command = "start" then ((some point, [point]), [])
  else if command = "move" then
    if long then
      let chunk := st.2 ++ [point]
      ((st.1, chunk), consecSegs chunk)
    else
      match st.1 with
      | some sp => ((some point, st.2), [(sp, point)])
      | none => ((some point, st.2), [])
  else if command = "end" then
    if long then ((none, []), consecSegs st.2)
    else
      match st.1 with
      | some sp => ((none, []), [(sp, point)])
      | none => ((none, []), [])
  else (st, [])

/-- Feed a sequence of stroke commands through the `VideoPlayer` draw dispatch,
collecting every segment drawn, starting from a given draw state (the player
starts with `start_point = None`, `annotation_chunk = []`). -/
def vp_render (long : Bool) : Option Point × List Point → List (String × Point) → List Segment
  | _, [] => []
  | st, (c, p) :: rest =>
    let r := vp_draw_command long st c p
    r.2 ++ vp_render long r.1 rest

/-- The command dispatch of `AnnotatedPlayer._draw_annotations`,
`_draw_move_annotations` and `_finalize_annotation_chunk` (src/player.py lines
487-512), acting on `annotation_chunk`.  The player's `last_point` attribute is
written but never read, so it is omitted.  Its `_finalize_annotation_chunk`
ignores both the `long_annotations` flag and the end point. -/
def ap_draw_command (long : Bool) (chunk : List Point) (command : String)
    (point : Point) : List Point × List Segment :=
  if command = "start" then ([point], [])
  else if command = "move" then
    if long then
      let chunk' := chunk ++ [point]
      (chunk', consecSegs chunk')
    else
      match chunk with
      | [] => ([point], [])
      | a :: rest => ([point], [((a :: rest).getLast (List.cons_ne_nil a rest), point)])
  else if command = "end" then ([], consecSegs chunk)
  else (chunk, [])

/-- Feed a sequence of stroke commands through the `AnnotatedPlayer` draw
dispatch (it starts with `annotation_chunk = []`). -/
def ap_render (long : Bool) : List Point → List (String × Point) → List Segment
  | _, [] => []
  | st, (c, p) :: rest =>
    let r := ap_draw_command long st c p
    r.2 ++ ap_render long r.1 rest

/-- Model of `VideoPlayer.draw_annotations` (src/player.py lines 166-180) as a state
step: read the last annotation and the largest key; inside the 5-frame
staleness window, dispatch the command.  `max()` on an empty dict raises in
Python; that state is unreachable while drawing and is modelled as the no-draw
branch. -/
def VideoPlayer.draw_annotations (s : PlayerState) : PlayerState × List Segment :=
  match get_last_anno s.data, maxKey s.data.annotations with
  | some (command, point), some largest_key =>
    if ((largest_key : Int) - (get_frames_length s.data : Int)).natAbs ≤ 5 then
      let r := vp_draw_command s.long_annotations (s.start_point, s.annotation_chunk)
        command point
      ({ s with start_point := r.1.1, annotation_chunk := r.1.2 }, r.2)
    else (s, [])
  | _, _ => (s, [])

/-- The decoder-and-clock readings consumed by one call of
`VideoPlayer._process_video_frame`: the result of `cap.read()`, the decoder
position `CAP_PROP_POS_FRAMES` and presentation time `CAP_PROP_POS_MSEC`
queried after a successful read, and the wall-clock `t.perf_counter()` value at
the append. -/
structure TickInput where
  read : Option Frame
  posFrames : Int
  posMsec : ℚ
  now : ℚ
  deriving DecidableEq, Repr

/-- Model of `VideoPlayer._process_video_frame` (src/player.py lines 233-267): handle at
most one queued command; when not paused, read the next decoder frame (on
end-of-stream reuse the cached last frame and cached time, otherwise cache the
frame and its presentation time); when paused, reuse the cached pause frame and
cached time; run the live annotation overlay while drawing; render the timer
label; append the pre-overlay frame with the wall-clock timestamp
`t.perf_counter() - self.start_counter`; advance the tick counter.  Returns the
updated state and the rendered label.  (`imshow`, `waitKey` and the UI seek
indicator are display-only and not modelled.) -/
def process_video_frame (s0 : PlayerState) (inp : TickInput) : PlayerState × String :=
  let s := handle_commands s0
  let sct :=
    if !s.paused then
      match inp.read with
      | none => ({ s with frame := s.last_frame }, s.last_frame_time)
      | some f =>
        ({ s with frame := f,
                  curr_frame_idx := inp.posFrames,
                  pause_frame := f,
                  last_frame_time := inp.posMsec }, inp.posMsec)
    else ({ s with frame := s.pause_frame }, s.last_frame_time)
  let s := sct.1
  let current_time := sct.2
  let s := if s.drawing then (VideoPlayer.draw_annotations s).1 else s
  let time_str := timeStr current_time
  let s := { s with
    data := add_curr_frame s.data s.curr_frame_idx (s.pbarN : Int) s.pause_frame
      time_str (inp.now - s.start_counter) }
  let s := { s with pbarN := s.pbarN + 1 }
  (s, time_str)

/-- The stroke tracker: `VideoPlayer.mouse_callback` (src/player.py lines
144-164) dispatching pointer events against the session-wide `drawing` flag. -/
inductive MouseEvent where
  | lbuttondown
  | mousemove
  | lbuttonup
  | other
  deriving DecidableEq, Repr

/-- The tracker state: the `drawing` flag together with the shared `Data`
object. -/
structure Tracker where
  drawing : Bool
  data : DataState
  deriving DecidableEq, Repr

/-- Model of `VideoPlayer.mouse_callback`: pointer-down (when idle) records `start` and
enters drawing mode; pointer-move while drawing records `move`; pointer-up
while drawing records `end` and leaves drawing mode; everything else is
ignored. -/
def mouse_callback (s : Tracker) (event : MouseEvent) (xy : Point) : Tracker :=
  match event with
  | MouseEvent.lbuttondown =>
    if !s.drawing then { drawing := true, data := add_anno s.data "start" xy } else s
  | MouseEvent.mousemove =>
    if s.drawing then { s with data := add_anno s.data "move" xy } else s
  | MouseEvent.lbuttonup =>
    if s.drawing then { drawing := false, data := add_anno s.data "end" xy } else s
  | MouseEvent.other => s

/-! ### The persistence pipeline (`Data.save_data`, `Data.save_av_and_clean`) -/

/-- The four stages run by `Data.save_data` (src/data.py lines 522-525), in
source order. -/
inductive Stage where
  | video
  | audio
  | mux
  | json
  deriving DecidableEq, Repr

/-- The stage list of `Data.save_data`. -/
def save_data_stages : List Stage := [Stage.video, Stage.audio, Stage.mux, Stage.json]

/-- Sequential execution with Python exception semantics: `Data.save_data` has
no `try/except` between its four calls, so a stage that raises aborts the
remaining stages.  Returns the list of stages that were attempted. -/
def run_stages (raises : Stage → Bool) : List Stage → List Stage
  | [] => []
  | st :: rest => if raises st then [st] else st :: run_stages raises rest

/-- The stages attempted by one `Data.save_data` call, given which stages raise
an uncaught exception. -/
def save_data_attempted (raises : Stage → Bool) : List Stage :=
  run_stages raises save_data_stages

/-- Existence of the two intermediate files consumed by the mux step. -/
structure SaveFS where
  out_file : Bool
  audio_file : Bool
  deriving DecidableEq, Repr

/-- Model of `Data.save_av_and_clean` (src/data.py lines 445-478): `subprocess.run` is
invoked without `check=True` and its return value is discarded, so the ffmpeg
exit status `muxExit` has no influence; afterwards each intermediate file is
deleted whenever it exists. -/
def save_av_and_clean (muxExit : Int) (fs : SaveFS) : SaveFS :=
  let _ := muxExit
  { out_file := if fs.out_file then false else fs.out_file,
    audio_file := if fs.audio_file then false else fs.audio_file }

/-! ### Decimal strings

`json.dump` stringifies the integer keys of the annotations dict, and
`AnnotatedPlayer` looks entries up by `str(frame_number)`; both are modelled
with `Nat.repr`.  The round-trip claim needs `Nat.repr` to be injective, proved
here via the digit-list characterisation `decChars`. -/

/-- The digit characters of `n` in base 10, most significant first: the list
built by `Nat.toDigitsCore`. -/
def decChars (n : Nat) : List Char :=
  if _h : n < 10 then [Nat.digitChar n]
  else decChars (n / 10) ++ [Nat.digitChar (n % 10)]
decreasing_by exact Nat.div_lt_self (by omega) (by omega)

/-- Numeric value of a digit character. -/
def chVal (c : Char) : Nat := c.toNat - 48

/-- Value of a most-significant-first digit-character list. -/
def digitsVal (l : List Char) : Nat := l.foldl (fun a c => 10 * a + chVal c) 0

/-! ### Concrete states used by witnesses and counterexamples -/

/-- A sequence of `Data.add_curr_frame` arguments: `(org_frame_idx, frame_idx,
frame, time_str, timestamp)`. -/
structure FrameInput where
  org_frame_idx : Int
  frame_idx : Int
  frame : Frame
  time_str : String
  timestamp : ℚ
  deriving DecidableEq, Repr

/-- One `add_curr_frame` call with its arguments bundled. -/
def appOne (d : DataState) (i : FrameInput) : DataState :=
  add_curr_frame d i.org_frame_idx i.frame_idx i.frame i.time_str i.timestamp

/-- Fold a sequence of frame appends over the store. -/
def apply_appends (d : DataState) : List FrameInput → DataState
  | [] => d
  | i :: is => apply_appends (appOne d i) is

/-- The logical indices assigned by a sequence of appends: each call's
`new_frame_idx = len(self.frames) - 1`, read off after the append. -/
def assigned_indices (d : DataState) : List FrameInput → List Nat
  | [] => []
  | i :: is => ((appOne d i).frames.length - 1) :: assigned_indices (appOne d i) is

/-- The Timeline Store of the C1 gap scenario: four frames at timestamps
0, 0.05, 0.3, 0.35 and six audio chunks at 0, 0.04, 0.1, 0.2, 0.32, 0.4. -/
def gapData : DataState :=
  { emptyData with
    frames := [(0, 0, 0), (1/20, 1, 1), (3/10, 2, 2), (7/20, 3, 3)],
    audio_data := [(0, [0]), (1/25, [1]), (1/10, [2]), (1/5, [3]), (8/25, [4]), (2/5, [5])] }

/-- A store holding exactly one captured frame whose annotation entry carries a
buffered `move` point: used to witness the stroke state machine claim. -/
def oneFrameData : DataState :=
  { emptyData with
    frames := [(0, 0, 0)],
    annotations := [(0,
      { idx := some 0, org_idx := some 0, time_str := some "0:00:00",
        anno := some ("move", (3, 4)), timestamp := some 0 })] }

/-- The tracker sitting idle over `oneFrameData`. -/
def idleTracker : Tracker := { drawing := false, data := oneFrameData }

/-- A running, unpaused player one tick after capture start. -/
def tickPlayer : PlayerState :=
  { paused := false, drawing := false, long_annotations := false,
    capPos := 0, capFrameCount := 10,
    curr_frame_idx := 0, last_frame_time := 0,
    frame := 0, pause_frame := 0, last_frame := 0,
    start_counter := 0, pbarN := 0, pbarTotal := 10,
    start_point := none, annotation_chunk := [],
    data := emptyData, command_queue := [] }

/-- A tick whose decoder read succeeds at presentation time 0 ms while five
wall-clock seconds have elapsed since the capture epoch. -/
def tickAtFiveSeconds : TickInput :=
  { read := some 7, posFrames := 1, posMsec := 0, now := 5 }

/-! ## Helper lemmas on the dict operations -/

theorem alookup_append_single {j k : Nat} {v : AnnoEntry} {l : List (Nat × AnnoEntry)}
    (h : k ≠ j) : alookup j (l ++ [(k, v)]) = alookup j l := by
  induction l with
  | nil => simp [alookup, h]
  | cons a rest ih =>
    obtain ⟨k', v'⟩ := a
    by_cases hk : k' = j <;> simp [alookup, hk, ih]

theorem alookup_eq_none {j : Nat} {l : List (Nat × AnnoEntry)}
    (h : j ∉ l.map Prod.fst) : alookup j l = none := by
  induction l with
  | nil => rfl
  | cons a rest ih =>
    obtain ⟨k', v'⟩ := a
    simp only [List.map_cons, List.mem_cons, not_or] at h
    simp [alookup, Ne.symm h.1, ih h.2]

theorem alookup_isSome {j : Nat} {l : List (Nat × AnnoEntry)}
    (h : j ∈ l.map Prod.fst) : (alookup j l).isSome := by
  induction l with
  | nil => simp at h
  | cons a rest ih =>
    obtain ⟨k', v'⟩ := a
    by_cases hk : k' = j
    · simp [alookup, hk]
    · simp only [List.map_cons, List.mem_cons] at h
      rcases h with h | h

      · exact absurd h.symm hk
      · simp [alookup, hk, ih h]

theorem aset_keys (k : Nat) (v : AnnoEntry) (l : List (Nat × AnnoEntry)) :
    (aset k v l).map Prod.fst = l.map Prod.fst := by
  induction l with
  | nil => rfl
  | cons a rest ih =>
    obtain ⟨k', v'⟩ := a
    by_cases h : k' = k <;> simp [aset, h, ih]

theorem alookup_aset_self {k : Nat} {v : AnnoEntry} {l : List (Nat × AnnoEntry)}
    (h : (alookup k l).isSome) : alookup k (aset k v l) = some v := by
  induction l with
  | nil => simp [alookup] at h
  | cons a rest ih =>
    obtain ⟨k', v'⟩ := a
    by_cases hk : k' = k
    · simp [aset, alookup, hk]
    · simp only [alookup, hk, if_false, aset, if_neg hk] at h ⊢
      exact ih h

theorem aset_aset (k : Nat) (v1 v2 : AnnoEntry) (l : List (Nat × AnnoEntry)) :
    aset k v2 (aset k v1 l) = aset k v2 l := by
  induction l with
  | nil => rfl
  | cons a rest ih =>
    obtain ⟨k', v'⟩ := a
    by_cases h : k' = k <;> simp [aset, h, ih]

/-! ## Frame-effect lemmas for the store operations -/

theorem add_curr_frame_frames (d : DataState) (org fi : Int) (fr : Frame)
    (ts : String) (tm : ℚ) :
    (add_curr_frame d org fi fr ts tm).frames = d.frames ++ [(tm, fi, fr)] := by
  unfold add_curr_frame
  split <;> rfl

theorem appOne_frames (d : DataState) (i : FrameInput) :
    (appOne d i).frames = d.frames ++ [(i.timestamp, i.frame_idx, i.frame)] :=
  add_curr_frame_frames d i.org_frame_idx i.frame_idx i.frame i.time_str i.timestamp

theorem add_anno_frames (d : DataState) (c : String) (p : Point) :
    (add_anno d c p).frames = d.frames := rfl

theorem add_anno_start {d : DataState} {e : AnnoEntry} (q : Point)
    (hf : d.frames ≠ [])
    (he : alookup (get_frames_length d - 1) d.annotations = some e) :
    get_anno_entry (add_anno d "start" q) (get_frames_length d - 1) =
      some { e with anno := some ("start", q) } := by
  have hf0 : ¬ get_frames_length d = 0 := by
    simpa [get_frames_length, List.length_eq_zero] using hf
  have hw : strokeWrite "start" q e.anno = some ("start", q) := by
    unfold strokeWrite
    rcases e.anno with _ | ⟨c0, p0⟩
    · rfl
    · by_cases h0 : c0 = "start" <;> simp [h0]
  have hsome : (alookup (get_frames_length d - 1) d.annotations).isSome := by
    rw [he]; rfl
  have h1 : alookup (get_frames_length d - 1)
      (aset (get_frames_length d - 1) { e with anno := some ("start", q) }
        d.annotations) = some { e with anno := some ("start", q) } :=
    alookup_aset_self hsome
  have hw2 : strokeWrite "start" q (some ("start", q)) = some ("start", q) := by
    simp [strokeWrite]
  unfold get_anno_entry add_anno add_anno_list
  simp only [hf0, if_false, he, hw, h1, hw2]
  rw [aset_aset]
  exact alookup_aset_self hsome

/-! ## Decimal strings: `Nat.repr` is injective -/

theorem toDigitsCore_eq_decChars (fuel : Nat) :
    ∀ (n : Nat) (ds : List Char), n < fuel →
      Nat.toDigitsCore 10 fuel n ds = decChars n ++ ds := by
  induction fuel with
  | zero => intro n ds h; omega
  | succ fuel ih =>
    intro n ds h
    rw [Nat.toDigitsCore]
    by_cases h10 : n / 10 = 0
    · have hn : n < 10 := by omega
      rw [if_pos h10, decChars, dif_pos hn, Nat.mod_eq_of_lt hn]
      rfl
    · have hn : ¬ n < 10 := by omega
      rw [if_neg h10, ih (n / 10) _ (by omega)]
      conv_rhs => rw [decChars]
      rw [dif_neg hn, List.append_assoc]
      rfl

theorem repr_eq_decChars (n : Nat) : Nat.repr n = (decChars n).asString := by
  unfold Nat.repr Nat.toDigits
  rw [toDigitsCore_eq_decChars (n + 1) n [] (Nat.lt_succ_self n), List.append_nil]

theorem chVal_digitChar : ∀ m, m < 10 → chVal (Nat.digitChar m) = m := by decide

theorem digitsVal_decChars (n : Nat) : digitsVal (decChars n) = n := by
  induction n using Nat.strong_induction_on with
  | _ n ih =>
    by_cases h : n < 10
    · rw [decChars, dif_pos h]
      show 10 * 0 + chVal (Nat.digitChar n) = n
      rw [chVal_digitChar n h]
      omega
    · rw [decChars, dif_neg h, digitsVal, List.foldl_append]
      show 10 * List.foldl (fun a c => 10 * a + chVal c) 0 (decChars (n / 10)) +
        chVal (Nat.digitChar (n % 10)) = n
      rw [show List.foldl (fun a c => 10 * a + chVal c) 0 (decChars (n / 10)) =
        digitsVal (decChars (n / 10)) from rfl]
      rw [ih (n / 10) (Nat.div_lt_self (by omega) (by omega)),
        chVal_digitChar (n % 10) (Nat.mod_lt n (by omega))]
      omega

theorem repr_injective : Function.Injective Nat.repr := by
  intro m n h
  rw [repr_eq_decChars, repr_eq_decChars] at h
  have hd : decChars m = decChars n := congrArg String.data h
  have h2 := congrArg digitsVal hd
  rwa [digitsVal_decChars, digitsVal_decChars] at h2

/-! ## Lookup in the persisted JSON object -/

theorem slookup_map_repr (idx : Nat) (l : List (Nat × AnnoEntry)) :
    slookup (Nat.repr idx) (l.map (fun kv => (Nat.repr kv.1, JVal.entry kv.2))) =
      (alookup idx l).map JVal.entry := by
  induction l with
  | nil => rfl
  | cons a rest ih =>
    obtain ⟨k, v⟩ := a
    by_cases hk : k = idx
    · subst hk
      simp [slookup, alookup]
    · have hr : Nat.repr k ≠ Nat.repr idx := fun hh => hk (repr_injective hh)
      simp [slookup, alookup, hk, hr, ih]

theorem slookup_append_left {k : String} {l1 l2 : List (String × JVal)} {v : JVal}
    (h : slookup k l1 = some v) : slookup k (l1 ++ l2) = some v := by
  induction l1 with
  | nil => simp [slookup] at h
  | cons a rest ih =>
    obtain ⟨k', v'⟩ := a
    by_cases hk : k' = k
    · simpa [slookup, hk] using h
    · simp only [slookup, hk, if_false, List.cons_append] at h ⊢
      exact ih h

/-! ## Lockstep append lemmas -/

theorem appOne_annos_of_inv {d : DataState} (i : FrameInput)
    (h : annoKeys d = List.range d.frames.length) :
    (appOne d i).annotations = d.annotations ++
      [(d.frames.length,
        { idx := some i.frame_idx, org_idx := some i.org_frame_idx,
          time_str := some i.time_str, anno := none, timestamp := some i.timestamp })] := by
  have hnone : alookup d.frames.length d.annotations = none := by
    apply alookup_eq_none
    intro hmem
    rw [show d.annotations.map Prod.fst = annoKeys d from rfl, h] at hmem
    exact absurd (List.mem_range.mp hmem) (lt_irrefl _)
  unfold appOne add_curr_frame
  split
  · show (match alookup ((d.frames ++ [_]).length - 1) d.annotations with
      | none => _ | some e => _) = _
    simp only [List.length_append, List.length_cons, List.length_nil,
      Nat.add_sub_cancel, hnone]
  · show (match alookup ((d.frames ++ [_]).length - 1) d.annotations with
      | none => _ | some e => _) = _
    simp only [List.length_append, List.length_cons, List.length_nil,
      Nat.add_sub_cancel, hnone]

theorem appOne_inv {d : DataState} (i : FrameInput)
    (h : annoKeys d = List.range d.frames.length) :
    annoKeys (appOne d i) = List.range ((appOne d i).frames.length) := by
  unfold annoKeys
  rw [appOne_annos_of_inv i h, appOne_frames]
  rw [List.map_append]
  rw [show d.annotations.map Prod.fst = annoKeys d from rfl, h]
  simp [List.range_succ, List.length_append]

theorem appOne_other_key {d : DataState} (i : FrameInput) {j : Nat}
    (h : annoKeys d = List.range d.frames.length) (hj : j ≠ d.frames.length) :
    alookup j (appOne d i).annotations = alookup j d.annotations := by
  rw [appOne_annos_of_inv i h]
  exact alookup_append_single (Ne.symm hj)

theorem apply_appends_inv (inputs : List FrameInput) (d : DataState)
    (h : annoKeys d = List.range d.frames.length) :
    annoKeys (apply_appends d inputs) =
      List.range ((apply_appends d inputs).frames.length) ∧
    (apply_appends d inputs).frames.length = d.frames.length + inputs.length := by
  induction inputs generalizing d with
  | nil => exact ⟨h, rfl⟩
  | cons i is ih =>
    obtain ⟨ha, hb⟩ := ih (appOne d i) (appOne_inv i h)
    refine ⟨ha, ?_⟩
    show (apply_appends (appOne d i) is).frames.length = d.frames.length + (i :: is).length
    rw [hb, appOne_frames]
    simp only [List.length_append, List.length_cons, List.length_nil]
    omega

theorem assigned_indices_eq (inputs : List FrameInput) (d : DataState) :
    assigned_indices d inputs = List.range' d.frames.length inputs.length := by
  induction inputs generalizing d with
  | nil => rfl
  | cons i is ih =>
    show ((appOne d i).frames.length - 1) :: assigned_indices (appOne d i) is = _
    rw [ih, appOne_frames]
    simp only [List.length_append, List.length_cons, List.length_nil,
      Nat.add_sub_cancel, List.range'_succ]

theorem apply_appends_snoc (inputs : List FrameInput) (i : FrameInput)
    (d : DataState) :
    apply_appends d (inputs ++ [i]) = appOne (apply_appends d inputs) i := by
  induction inputs generalizing d with
  | nil => rfl
  | cons j js ih => exact ih (appOne d j)

/-! ## Player-state preservation lemmas -/

theorem handle_commands_start_counter (s : PlayerState) :
    (handle_commands s).start_counter = s.start_counter := by
  unfold handle_commands
  cases s.command_queue with
  | nil => rfl
  | cons c rest => cases c <;> rfl

theorem draw_annotations_start_counter (s : PlayerState) :
    (VideoPlayer.draw_annotations s).1.start_counter = s.start_counter := by
  unfold VideoPlayer.draw_annotations
  rcases get_last_anno s.data with _ | ⟨c, p⟩
  · rfl
  · rcases maxKey s.data.annotations with _ | k
    · rfl
    · by_cases hw : ((k : Int) - (get_frames_length s.data : Int)).natAbs ≤ 5
      · simp [if_pos hw]
      · simp [if_neg hw]

theorem draw_annotations_data (s : PlayerState) :
    (VideoPlayer.draw_annotations s).1.data = s.data := by
  unfold VideoPlayer.draw_annotations
  rcases get_last_anno s.data with _ | ⟨c, p⟩
  · rfl
  · rcases maxKey s.data.annotations with _ | k
    · rfl
    · by_cases hw : ((k : Int) - (get_frames_length s.data : Int)).natAbs ≤ 5
      · simp [if_pos hw]
      · simp [if_neg hw]

/-! ## The claims -/

/-- C1: on a Timeline Store whose frames sit at timestamps 0, 0.05, 0.3, 0.35
and whose audio chunks sit at 0, 0.04, 0.1, 0.2, 0.32, 0.4,
`identify_video_gaps` with threshold 0.1 returns exactly the single gap
(0.05, 0.3), and `combined_audio` returns exactly the concatenation of the
chunks at 0, 0.04, 0.32, 0.4, in that order. -/
theorem c1_gap_reconciliation (f0 f1 f2 f3 : Frame) (i0 i1 i2 i3 : Int)
    (a0 a1 a2 a3 a4 a5 : AudioBuf) (d : DataState)
    (hframes : d.frames = [(0, i0, f0), (1/20, i1, f1), (3/10, i2, f2), (7/20, i3, f3)])
    (haudio : d.audio_data =
      [(0, a0), (1/25, a1), (1/10, a2), (1/5, a3), (8/25, a4), (2/5, a5)]) :
    identify_video_gaps d (1/10) = [(1/20, 3/10)] ∧
    combined_audio d = a0 ++ a1 ++ a4 ++ a5 := by
  have hgaps : identify_video_gaps d (1/10) = [(1/20, 3/10)] := by
    unfold identify_video_gaps
    rw [hframes]
    norm_num [gapScan]
  refine ⟨hgaps, ?_⟩
  unfold combined_audio
  rw [hgaps, haudio]
  norm_num [sync_walk, List.takeWhile, List.dropWhile]

/-- Witness for C1: the concrete store `gapData` satisfies both hypotheses and
both conclusions. -/
theorem c1_witness :
    gapData.frames = [(0, 0, 0), (1/20, 1, 1), (3/10, 2, 2), (7/20, 3, 3)] ∧
    gapData.audio_data =
      [(0, [0]), (1/25, [1]), (1/10, [2]), (1/5, [3]), (8/25, [4]), (2/5, [5])] ∧
    identify_video_gaps gapData (1/10) = [(1/20, 3/10)] ∧
    combined_audio gapData = [0] ++ [1] ++ [4] ++ [5] := by
  refine ⟨rfl, rfl, ?_, ?_⟩
  · exact (c1_gap_reconciliation 0 1 2 3 0 1 2 3 [0] [1] [2] [3] [4] [5] gapData
      rfl rfl).1
  · exact (c1_gap_reconciliation 0 1 2 3 0 1 2 3 [0] [1] [2] [3] [4] [5] gapData
      rfl rfl).2

/-- C2: starting from an empty store, any sequence of `add_curr_frame` calls
(whatever the decoder indices) assigns logical indices exactly 0..N-1 in
order; after every prefix the annotation key set is exactly `{0..k-1}` for `k`
appended frames; and each single append touches the entry at its own logical
index and no other. -/
theorem c2_monotonic_indexing (d0 : DataState)
    (hf : d0.frames = []) (ha : d0.annotations = []) :
    (∀ inputs : List FrameInput,
      assigned_indices d0 inputs = List.range inputs.length) ∧
    (∀ inputs : List FrameInput,
      annoKeys (apply_appends d0 inputs) = List.range inputs.length) ∧
    (∀ (inputs : List FrameInput) (i : FrameInput),
      (alookup inputs.length (apply_appends d0 (inputs ++ [i])).annotations).isSome) ∧
    (∀ (inputs : List FrameInput) (i : FrameInput) (j : Nat), j ≠ inputs.length →
      alookup j (apply_appends d0 (inputs ++ [i])).annotations =
        alookup j (apply_appends d0 inputs).annotations) := by
  have hinv : annoKeys d0 = List.range d0.frames.length := by
    unfold annoKeys
    rw [ha, hf]
    rfl
  have hlen : ∀ inputs : List FrameInput,
      (apply_appends d0 inputs).frames.length = inputs.length := by
    intro inputs
    have h := (apply_appends_inv inputs d0 hinv).2
    rw [hf] at h
    simpa using h
  have hkeys : ∀ inputs : List FrameInput,
      annoKeys (apply_appends d0 inputs) = List.range inputs.length := by
    intro inputs
    have h := (apply_appends_inv inputs d0 hinv).1
    rwa [hlen inputs] at h
  refine ⟨?_, hkeys, ?_, ?_⟩
  · intro inputs
    rw [assigned_indices_eq, hf, List.range_eq_range']
    rfl
  · intro inputs i
    apply alookup_isSome
    rw [show (apply_appends d0 (inputs ++ [i])).annotations.map Prod.fst =
      annoKeys (apply_appends d0 (inputs ++ [i])) from rfl, hkeys (inputs ++ [i])]
    simp
  · intro inputs i j hj
    rw [apply_appends_snoc]
    apply appOne_other_key
    · rw [hlen inputs]
      exact hkeys inputs
    · rw [hlen inputs]
      exact hj

/-- Witness for C2: the fresh store is empty, and two appends with irregular
decoder indices are assigned logical indices 0 and 1. -/
theorem c2_witness :
    emptyData.frames = [] ∧ emptyData.annotations = [] ∧
    assigned_indices emptyData
      [⟨0, 0, 0, "0:00:00", 0⟩, ⟨5, 9, 1, "0:00:00", 1/30⟩] = [0, 1] := by
  refine ⟨rfl, rfl, ?_⟩
  have h := (c2_monotonic_indexing emptyData rfl rfl).1
    [⟨0, 0, 0, "0:00:00", 0⟩, ⟨5, 9, 1, "0:00:00", 1/30⟩]
  rw [h]
  rfl

/-- C3: over a store holding at least one frame whose annotation entry exists,
a pointer-move or pointer-up event while no stroke is open (`drawing = false`)
leaves the tracker — in particular the current frame's annotation entry —
unchanged, and recording a `start` command always overwrites whatever
command/point was buffered for the current frame's stroke with the new point. -/
theorem c3_stroke_state_machine (s : Tracker) (p q : Point) (e : AnnoEntry)
    (hf : s.data.frames ≠ [])
    (he : alookup (get_frames_length s.data - 1) s.data.annotations = some e) :
    (s.drawing = false →
      mouse_callback s MouseEvent.mousemove p = s ∧
      mouse_callback s MouseEvent.lbuttonup p = s) ∧
    get_anno_entry (add_anno s.data "start" q) (get_frames_length s.data - 1) =
      some { e with anno := some ("start", q) } := by
  constructor
  · intro hd
    constructor <;> simp [mouse_callback, hd]
  · exact add_anno_start q hf he

/-- Witness for C3: the idle tracker over a one-frame store with a buffered
`move` point; a move event is a no-op and `start` overwrites the buffer. -/
theorem c3_witness :
    idleTracker.data.frames ≠ [] ∧
    alookup (get_frames_length idleTracker.data - 1) idleTracker.data.annotations =
      some { idx := some 0, org_idx := some 0, time_str := some "0:00:00",
             anno := some ("move", (3, 4)), timestamp := some 0 } ∧
    mouse_callback idleTracker MouseEvent.mousemove (5, 5) = idleTracker ∧
    get_anno_entry (add_anno idleTracker.data "start" (9, 9))
        (get_frames_length idleTracker.data - 1) =
      some { idx := some 0, org_idx := some 0, time_str := some "0:00:00",
             anno := some ("start", (9, 9)), timestamp := some 0 } := by
  have h := c3_stroke_state_machine idleTracker (5, 5) (9, 9)
    { idx := some 0, org_idx := some 0, time_str := some "0:00:00",
      anno := some ("move", (3, 4)), timestamp := some 0 }
    (by decide) (by decide)
  exact ⟨by decide, by decide, (h.1 rfl).1, h.2⟩

/-- C4: for every frame index present in the persisted annotation timeline,
the Playback Reconstructor's lookup at that same frame number finds the entry
and replays exactly the stroke command/point pair and the elapsed-time label
that were written for it. -/
theorem c4_round_trip (d : DataState) (idx : Nat) (e : AnnoEntry) (ts : String)
    (he : alookup idx d.annotations = some e)
    (hts : e.time_str = some ts) (hne : ts ≠ "") :
    process_frame (save_annotations d) idx = { anno := e.anno, time := some ts } := by
  have hmap : slookup (Nat.repr idx)
      (d.annotations.map (fun kv => (Nat.repr kv.1, JVal.entry kv.2))) =
      some (JVal.entry e) := by
    rw [slookup_map_repr, he]
    rfl
  unfold process_frame save_annotations
  rw [slookup_append_left hmap]
  simp [hts, hne]

/-- Witness for C4: the one-frame store round-trips its single entry. -/
theorem c4_witness :
    alookup 0 oneFrameData.annotations =
      some { idx := some 0, org_idx := some 0, time_str := some "0:00:00",
             anno := some ("move", (3, 4)), timestamp := some 0 } ∧
    ("0:00:00" : String) ≠ "" ∧
    process_frame (save_annotations oneFrameData) 0 =
      { anno := some ("move", (3, 4)), time := some "0:00:00" } := by
  refine ⟨by decide, by decide, ?_⟩
  exact c4_round_trip oneFrameData 0
    { idx := some 0, org_idx := some 0, time_str := some "0:00:00",
      anno := some ("move", (3, 4)), timestamp := some 0 }
    "0:00:00" (by decide) rfl (by decide)

/-- C5: after `restart()` the frame, audio and annotation sequences are empty,
the current-frame pointer is 0, the max-frame counter equals the decoder's
reported frame count, and every command that was on the queue is discarded —
the post-restart state does not depend on the old queue at all, so a discarded
command can never be applied afterwards. -/
theorem c5_restart_clears_state (s : PlayerState) :
    (VideoPlayer.restart s).data.frames = [] ∧
    (VideoPlayer.restart s).data.audio_data = [] ∧
    (VideoPlayer.restart s).data.annotations = [] ∧
    (VideoPlayer.restart s).data.curr_frame = 0 ∧
    (VideoPlayer.restart s).data.max_frames = s.capFrameCount ∧
    (VideoPlayer.restart s).command_queue = [] ∧
    (∀ c ∈ s.command_queue, c ∉ (VideoPlayer.restart s).command_queue) ∧
    (∀ q : List Command,
      VideoPlayer.restart { s with command_queue := q } = VideoPlayer.restart s) := by
  refine ⟨rfl, rfl, rfl, rfl, rfl, rfl, ?_, ?_⟩
  · intro c _ hc
    simp [VideoPlayer.restart] at hc
  · intro q
    rfl

/-- Witness for C5: a queued pause command is discarded by restart. -/
theorem c5_witness :
    (VideoPlayer.restart { tickPlayer with command_queue := [Command.pause] }).command_queue
      = [] ∧
    Command.pause ∉
      (VideoPlayer.restart { tickPlayer with command_queue := [Command.pause] }).command_queue := by
  have h := c5_restart_clears_state { tickPlayer with command_queue := [Command.pause] }
  exact ⟨h.2.2.2.2.2.1, h.2.2.2.2.2.2.1 Command.pause (by decide)⟩

/-- C6 counterexample: for the two-point stroke start (0,0) then end (1,1),
the `VideoPlayer` with `long_annotations = true` draws no segment while with
`long_annotations = false` it draws the segment (0,0)→(1,1): the two policies
do not render identically. -/
theorem c6_counterexample :
    vp_render true (none, []) [("start", ((0 : Int), (0 : Int))), ("end", (1, 1))] = [] ∧
    vp_render false (none, []) [("start", ((0 : Int), (0 : Int))), ("end", (1, 1))] =
      [(((0 : Int), (0 : Int)), ((1 : Int), (1 : Int)))] ∧
    vp_render true (none, []) [("start", ((0 : Int), (0 : Int))), ("end", (1, 1))] ≠
      vp_render false (none, []) [("start", ((0 : Int), (0 : Int))), ("end", (1, 1))] := by
  refine ⟨?_, ?_, ?_⟩ <;> decide

/-- C6 amended: for a stroke of exactly two points (start P0, end P1) the
`VideoPlayer`'s short policy draws exactly the single segment P0→P1 while its
long policy draws no segment, and the `AnnotatedPlayer` draws no segment under
either policy. -/
theorem c6_two_point_stroke (P0 P1 : Point) :
    vp_render false (none, []) [("start", P0), ("end", P1)] = [(P0, P1)] ∧
    vp_render true (none, []) [("start", P0), ("end", P1)] = [] ∧
    (∀ long : Bool, ap_render long [] [("start", P0), ("end", P1)] = []) := by
  refine ⟨?_, ?_, ?_⟩
  · simp [vp_render, vp_draw_command, consecSegs]
  · simp [vp_render, vp_draw_command, consecSegs]
  · intro long
    simp [ap_render, ap_draw_command, consecSegs]

/-- C7 counterexample: at a tick where the decoder reports presentation time
0 ms while five wall-clock seconds have elapsed since the capture epoch, the
rendered label equals the decoder-time label "0:00:00" and differs from the
wall-clock label "0:00:05": the elapsed-time label is not the wall-clock time
since the capture epoch. -/
theorem c7_counterexample :
    (process_video_frame tickPlayer tickAtFiveSeconds).2 =
      timeStr tickAtFiveSeconds.posMsec ∧
    (process_video_frame tickPlayer tickAtFiveSeconds).2 ≠
      timeStr ((tickAtFiveSeconds.now - tickPlayer.start_counter) * 1000) := by
  have h1 : (process_video_frame tickPlayer tickAtFiveSeconds).2 = "0:00:00" := rfl
  have h2 : timeStr tickAtFiveSeconds.posMsec = "0:00:00" := rfl
  have h3 : timeStr ((tickAtFiveSeconds.now - tickPlayer.start_counter) * 1000) =
      "0:00:05" := by
    rw [show (tickAtFiveSeconds.now - tickPlayer.start_counter) * 1000 = 5000 by
      norm_num [tickAtFiveSeconds, tickPlayer]]
    rfl
  constructor
  · rw [h1, h2]
  · rw [h1, h3]
    decide

/-- C7 amended: on an unpaused tick with a successful decoder read, the
rendered label is computed from the decoder's presentation time
(`CAP_PROP_POS_MSEC`) and is independent of the wall clock; the wall-clock
elapsed time `now - start_counter` is stored as the appended frame's timeline
timestamp instead. -/
theorem c7_label_from_decoder (s : PlayerState) (inp : TickInput) (f : Frame)
    (n1 n2 : ℚ)
    (hp : (handle_commands s).paused = false) (hr : inp.read = some f) :
    (process_video_frame s inp).2 = timeStr inp.posMsec ∧
    (process_video_frame s { inp with now := n1 }).2 =
      (process_video_frame s { inp with now := n2 }).2 ∧
    (∃ k fr, (process_video_frame s inp).1.data.frames.getLast? =
      some (inp.now - s.start_counter, k, fr)) := by
  refine ⟨?_, ?_, ?_⟩
  · simp only [process_video_frame, hp, hr, Bool.not_false, if_true]
  · simp only [process_video_frame, hp, hr, Bool.not_false, if_true]
  · simp only [process_video_frame, hp, hr, Bool.not_false, if_true]
    by_cases hd : (handle_commands s).drawing = true
    · simp only [hd, if_true, add_curr_frame_frames, List.getLast?_concat,
        draw_annotations_start_counter, handle_commands_start_counter]
      exact ⟨_, _, rfl⟩
    · simp only [hd, if_false, add_curr_frame_frames, List.getLast?_concat,
        handle_commands_start_counter]
      exact ⟨_, _, rfl⟩

/-- Witness for C7 amended: the concrete unpaused tick. -/
theorem c7_witness :
    (handle_commands tickPlayer).paused = false ∧
    tickAtFiveSeconds.read = some 7 ∧
    ((process_video_frame tickPlayer tickAtFiveSeconds).2 =
        timeStr tickAtFiveSeconds.posMsec ∧
      (process_video_frame tickPlayer { tickAtFiveSeconds with now := 5 }).2 =
        (process_video_frame tickPlayer { tickAtFiveSeconds with now := 100 }).2 ∧
      (∃ k fr,
        (process_video_frame tickPlayer tickAtFiveSeconds).1.data.frames.getLast? =
          some (tickAtFiveSeconds.now - tickPlayer.start_counter, k, fr))) :=
  ⟨rfl, rfl, c7_label_from_decoder tickPlayer tickAtFiveSeconds 7 5 100 rfl rfl⟩

/-- C8 counterexample: when the mux stage raises, the annotation JSON stage is
not attempted (refuting the first half of the claim), and when the muxer exits
with status 1 the two intermediate files are deleted anyway (refuting the
cleanup-skipping half). -/
theorem c8_counterexample :
    Stage.json ∉ save_data_attempted (fun st => decide (st = Stage.mux)) ∧
    save_av_and_clean 1 { out_file := true, audio_file := true } =
      { out_file := false, audio_file := false } := by
  refine ⟨?_, ?_⟩ <;> decide

/-- C8 amended: an uncaught exception in the mux stage aborts `save_data`
before the annotation JSON write is ever attempted, and `save_av_and_clean`
deletes both intermediate files regardless of the mux exit status. -/
theorem c8_save_error_containment (raises : Stage → Bool) (fs : SaveFS)
    (muxExit : Int)
    (hv : raises Stage.video = false) (ha : raises Stage.audio = false)
    (hm : raises Stage.mux = true) :
    save_data_attempted raises = [Stage.video, Stage.audio, Stage.mux] ∧
    Stage.json ∉ save_data_attempted raises ∧
    save_av_and_clean muxExit fs = { out_file := false, audio_file := false } := by
  have hrun : save_data_attempted raises = [Stage.video, Stage.audio, Stage.mux] := by
    simp [save_data_attempted, save_data_stages, run_stages, hv, ha, hm]
  refine ⟨hrun, ?_, ?_⟩
  · rw [hrun]
    decide
  · unfold save_av_and_clean
    rcases fs with ⟨o, a⟩
    cases o <;> cases a <;> rfl

/-- Witness for C8 amended: the mux-only-raises stage map and a file system
holding both intermediates. -/
theorem c8_witness :
    (fun st => decide (st = Stage.mux)) Stage.video = false ∧
    (fun st => decide (st = Stage.mux)) Stage.audio = false ∧
    (fun st => decide (st = Stage.mux)) Stage.mux = true ∧
    (save_data_attempted (fun st => decide (st = Stage.mux)) =
        [Stage.video, Stage.audio, Stage.mux] ∧
      Stage.json ∉ save_data_attempted (fun st => decide (st = Stage.mux)) ∧
      save_av_and_clean 7 { out_file := true, audio_file := false } =
        { out_file := false, audio_file := false }) :=
  ⟨rfl, rfl, rfl,
    c8_save_error_containment (fun st => decide (st = Stage.mux))
      { out_file := true, audio_file := false } 7 rfl rfl rfl⟩

/-- C9: on a store with zero frames or zero annotation entries,
`get_last_anno` returns the `None` sentinel (the function is total, so it
cannot raise or index out of bounds); `combined_audio` returns the empty array
when there are no chunks at all and, more generally, whenever no chunk
survives the gap walk. -/
theorem c9_empty_session_guard (d : DataState) :
    (get_frames_length d = 0 ∨ get_annotations_length d = 0 →
      get_last_anno d = none) ∧
    (d.audio_data = [] → combined_audio d = []) ∧
    (sync_walk d.audio_data (identify_video_gaps d (1/10)) = [] →
      combined_audio d = []) := by
  refine ⟨?_, ?_, ?_⟩
  · intro h
    unfold get_last_anno
    rw [if_pos h]
  · intro h
    unfold combined_audio
    rw [h]
    have hempty : ∀ gaps : List (ℚ × ℚ), sync_walk [] gaps = [] := by
      intro gaps
      induction gaps with
      | nil => rfl
      | cons g rest ih =>
        obtain ⟨gs, ge⟩ := g
        simpa [sync_walk] using ih
    rw [hempty]
    rfl
  · intro h
    unfold combined_audio
    rw [h]
    rfl

/-- Witness for C9: the empty store. -/
theorem c9_witness :
    get_last_anno emptyData = none ∧ combined_audio emptyData = [] :=
  ⟨(c9_empty_session_guard emptyData).1 (Or.inl rfl),
   (c9_empty_session_guard emptyData).2.1 rfl⟩

/-- C10: `Data.clean` empties the frames, audio and annotation sequences,
resets `curr_frame` to 0, assigns 0 to the distinct `max_frame` attribute, and
leaves `max_frames` and every other field of the object unchanged. -/
theorem c10_clean_frame_effect (d : DataState) :
    (clean d).frames = [] ∧ (clean d).audio_data = [] ∧
    (clean d).annotations = [] ∧ (clean d).curr_frame = 0 ∧
    (clean d).max_frame = some 0 ∧
    (clean d).max_frames = d.max_frames ∧
    (clean d).in_path = d.in_path ∧ (clean d).out_path = d.out_path ∧
    (clean d).name = d.name ∧ (clean d).in_file_path = d.in_file_path ∧
    (clean d).out_file_path = d.out_file_path ∧
    (clean d).audio_name = d.audio_name ∧
    (clean d).audio_path = d.audio_path ∧
    (clean d).frame_rate = d.frame_rate ∧
    (clean d).frame_count = d.frame_count ∧
    (clean d).frame_width = d.frame_width ∧
    (clean d).frame_height = d.frame_height ∧
    (clean d).sample_rate = d.sample_rate ∧
    (clean d).channels = d.channels :=
  ⟨rfl, rfl, rfl, rfl, rfl, rfl, rfl, rfl, rfl, rfl, rfl, rfl, rfl, rfl, rfl,
   rfl, rfl, rfl, rfl⟩

end Annotater
